import Mathlib

/-!
# Anime schedule page (`script.js`): a shallow embedding

The page script fetches anime metadata for a fixed title list, formats the airing
schedule of each title and renders one card per title.  This file embeds the functions
of `script.js` and proves the properties stated about them.

Modelling conventions.

* JavaScript strings are Lean `String`s.  The values the script handles are API enum names,
  titles and URLs; `charAt(0)` / `slice(1)` split off the first character.
* Numbers coming from the API are GraphQL `Int`s, far inside the range where JavaScript
  double arithmetic is exact, so they are Lean `Int`s and a number inside a template
  literal prints as decimal `toString`.
* A nullable JSON field is an `Option`; `null` and `undefined` are both `none`.
* `RawMedia` is a media object whose `title` and `coverImage` objects are present, the input
  on which `getAnimeSchedule` returns; `FetchedMedia` is the object as a response delivers
  it, where either may be `null`, and `getAnimeScheduleCall` is the call on it, which throws
  on a `null` object.
* Host functions whose result the script only passes along (`Date.toLocaleString`,
  `toUpperCase`, `toLowerCase`) are fields of an environment record `Env`.
* Effects (`console.error`, `fetch`, `setTimeout`, DOM class toggles) are explicit state.
-/

namespace AnimeSchedule

/-! ## JavaScript primitives -/

/-- A JavaScript `Error` value, identified by its message. -/
structure JsError where
  message : String
deriving DecidableEq, Repr

/-- Host behaviour that the script relies on and whose output it only forwards. -/
structure Env where
  /-- The `toLocaleString` rendering of `new Date(ms)` for the `en-IN` locale in the
  `Asia/Kolkata` time zone, as a function of the epoch milliseconds. -/
  toLocaleStringIST : Int → String
  /-- The method `String.prototype.toUpperCase`. -/
  toUpperCase : String → String
  /-- The method `String.prototype.toLowerCase`. -/
  toLowerCase : String → String
  /-- The `TypeError` raised by reading the named property of `null` or `undefined`. -/
  nullReadError : String → JsError

/-- Truthiness of a nullable string: `null`, `undefined` and the empty string are falsy. -/
def truthyStr : Option String → Bool
  | none => false
  | some s => s != ""

/-- Truthiness of a nullable number: `null`, `undefined` and `0` are falsy. -/
def truthyNum : Option Int → Bool
  | none => false
  | some n => n != 0

/-- The expression `a || b` on nullable strings. -/
def orStr (a b : Option String) : Option String :=
  if truthyStr a then a else b

/-- The expression `a || b` where the right operand `b` is a string literal. -/
def orLit (a : Option String) (b : String) : String :=
  if truthyStr a then a.getD "" else b

/-- The expression `s || b` on a string `s`, with `b` a string literal. -/
def strOrLit (s : String) (b : String) : String :=
  if s != "" then s else b

/-- The method call `s.charAt(0)`. -/
def charAt0 (s : String) : String := String.mk (s.data.take 1)

/-- The method call `s.slice(1)`. -/
def slice1 (s : String) : String := String.mk (s.data.drop 1)

/-- Code points that `String.prototype.trim` strips: ECMAScript WhiteSpace and
LineTerminator. -/
def isJsWhitespace (c : Char) : Bool :=
  let n := c.toNat
  n == 0x09 || n == 0x0A || n == 0x0B || n == 0x0C || n == 0x0D || n == 0x20 ||
  n == 0xA0 || n == 0x1680 || (0x2000 ≤ n && n ≤ 0x200A) || n == 0x2028 || n == 0x2029 ||
  n == 0x202F || n == 0x205F || n == 0x3000 || n == 0xFEFF

/-- The method call `s.trim()`. -/
def jsTrim (s : String) : String :=
  String.mk ((s.data.dropWhile isJsWhitespace).reverse.dropWhile isJsWhitespace).reverse

/-- Whether `sub` occurs in `s` as a contiguous run, on character lists. -/
def includesChars : List Char → List Char → Bool
  | [], sub => sub.isEmpty
  | c :: cs, sub => sub.isPrefixOf (c :: cs) || includesChars cs sub

/-- The method call `s.includes(sub)`. -/
def jsIncludes (s sub : String) : Bool := includesChars s.data sub.data

/-- The method call `parts.join(sep)` on an array of strings. -/
def jsJoin (sep : String) (parts : List String) : String := sep.intercalate parts

/-- An environment with ASCII case mapping and a stand-in timestamp renderer, used to
evaluate the functions on concrete inputs. -/
def sampleEnv : Env where
  toLocaleStringIST := fun ms => "<" ++ toString ms ++ ">"
  toUpperCase := fun s => String.mk (s.data.map Char.toUpper)
  toLowerCase := fun s => String.mk (s.data.map Char.toLower)
  nullReadError := fun property => ⟨"Cannot read properties of null, reading " ++ property⟩

/-! ## Configuration constants -/

/-- The constant `ANIME_TITLES`. -/
def ANIME_TITLES : List String :=
  ["City the Animation", "Bad Girl", "My Dress-Up Darling Season 2", "Dandadan Season 2",
   "Rent-a-Girlfriend Season 4"]

/-- The constant `DELAY_BETWEEN_REQUESTS_MS`. -/
def DELAY_BETWEEN_REQUESTS_MS : Nat := 1000

/-! ## Data model -/

/-- The `title` object of a media record. -/
structure MediaTitle where
  english : Option String
  romaji : Option String
  native : Option String
deriving DecidableEq, Repr

/-- The `coverImage` object of a media record. -/
structure CoverImage where
  large : Option String
deriving DecidableEq, Repr

/-- The `startDate` object of a media record. -/
structure FuzzyDate where
  year : Option Int
  month : Option Int
  day : Option Int
deriving DecidableEq, Repr

/-- The `nextAiringEpisode` object of a media record. -/
structure AiringEpisode where
  airingAt : Int
  episode : Int
  timeUntilAiring : Int
deriving DecidableEq, Repr

/-- The `Media` object the query selects, with its `title` and `coverImage` objects
present. -/
structure RawMedia where
  title : MediaTitle
  coverImage : CoverImage
  season : Option String
  seasonYear : Option Int
  startDate : FuzzyDate
  episodes : Option Int
  status : Option String
  siteUrl : Option String
  nextAiringEpisode : Option AiringEpisode
deriving DecidableEq, Repr

/-- The `Media` object as a response delivers it: the fields of `RawMedia`, where the
`title` and `coverImage` objects themselves may be `null`. -/
structure FetchedMedia where
  title : Option MediaTitle
  coverImage : Option CoverImage
  season : Option String
  seasonYear : Option Int
  startDate : FuzzyDate
  episodes : Option Int
  status : Option String
  siteUrl : Option String
  nextAiringEpisode : Option AiringEpisode
deriving DecidableEq, Repr

/-- A delivered object whose `title` and `coverImage` objects are present. -/
def FetchedMedia.ofRaw (m : RawMedia) : FetchedMedia where
  title := some m.title
  coverImage := some m.coverImage
  season := m.season
  seasonYear := m.seasonYear
  startDate := m.startDate
  episodes := m.episodes
  status := m.status
  siteUrl := m.siteUrl
  nextAiringEpisode := m.nextAiringEpisode

/-- The value of `nextEpisodeNumber`: the episode number, or a string such as `"N/A"`. -/
inductive EpisodeNumber where
  | number (n : Int)
  | text (s : String)
deriving DecidableEq, Repr

/-- How `nextEpisodeNumber` prints inside a template literal. -/
def EpisodeNumber.render : EpisodeNumber → String
  | .number n => toString n
  | .text s => s

/-- The object `getAnimeSchedule` returns. -/
structure ScheduleRecord where
  englishName : String
  coverImage : String
  seasonAndYear : String
  nextEpisodeInfo : String
  nextEpisodeNumber : EpisodeNumber
  timeUntilNextEpisode : String
  isComingSoon : Bool
  siteUrl : Option String
deriving DecidableEq, Repr

/-! ## Formatters -/

/-- The function `formatSeason(seasonEnum)`. -/
def formatSeason (env : Env) (seasonEnum : Option String) : String :=
  if !truthyStr seasonEnum then ""
  else
    let s := seasonEnum.getD ""
    env.toUpperCase (charAt0 s) ++ env.toLowerCase (slice1 s)

/-- The function `formatTimeUntilAiring(totalSeconds)`.  `Math.floor(a / b)` is floor
division and `%` is the truncating remainder. -/
def formatTimeUntilAiring (totalSeconds : Int) : String :=
  if totalSeconds < 0 then "Already aired"
  else
    let days := Int.fdiv totalSeconds (3600 * 24)
    let hours := Int.fdiv (Int.tmod totalSeconds (3600 * 24)) 3600
    let minutes := Int.fdiv (Int.tmod totalSeconds 3600) 60
    let seconds := Int.tmod totalSeconds 60
    let parts : List String := []
    let parts := if days > 0 then parts ++ [toString days ++ "d"] else parts
    let parts := if hours > 0 then parts ++ [toString hours ++ "h"] else parts
    let parts := if minutes > 0 then parts ++ [toString minutes ++ "m"] else parts
    let parts :=
      if parts.length = 0 ∧ seconds ≥ 0 then parts ++ [toString seconds ++ "s"] else parts
    strOrLit (jsJoin " " parts) "Soon"

/-! ## Schedule builder -/

/-- The function `getAnimeSchedule(animeData)`. -/
def getAnimeSchedule (env : Env) (animeData : RawMedia) : ScheduleRecord :=
  let englishName :=
    orLit (orStr (orStr animeData.title.english animeData.title.romaji) animeData.title.native)
      "Unknown Title"
  let coverImageUrl :=
    orLit animeData.coverImage.large
      "https://placehold.co/400x600/1a202c/e2e8f0?text=Image+Not+Available"
  let seasonAndYear :=
    jsTrim (formatSeason env animeData.season ++ " " ++
      (if truthyNum animeData.seasonYear then toString (animeData.seasonYear.getD 0) else ""))
  let isComingSoon := false
  let nextEpisodeInfo := "Series information not available."
  let timeUntilNextEpisode := "N/A"
  let nextEpisodeNumber := EpisodeNumber.text "N/A"
  let (nextEpisodeInfo, timeUntilNextEpisode, nextEpisodeNumber) :=
    match animeData.nextAiringEpisode with
    | some nextAiringEpisode =>
      let nextAiringTimestampMs := nextAiringEpisode.airingAt * 1000
      let timeUntilNextEpisode := formatTimeUntilAiring nextAiringEpisode.timeUntilAiring
      let nextEpisodeNumber := EpisodeNumber.number nextAiringEpisode.episode
      let nextAirDateIST := env.toLocaleStringIST nextAiringTimestampMs
      ("Ep " ++ nextEpisodeNumber.render ++ " on " ++ nextAirDateIST ++ " IST (" ++
          timeUntilNextEpisode ++ ")",
        timeUntilNextEpisode, nextEpisodeNumber)
    | none =>
      if animeData.status = some "FINISHED" then
        ("Series has concluded.", timeUntilNextEpisode, nextEpisodeNumber)
      else if animeData.status = some "NOT_YET_RELEASED" ∨ isComingSoon = true then
        ("Not yet aired.", timeUntilNextEpisode, nextEpisodeNumber)
      else if truthyNum animeData.episodes ∧ animeData.episodes.getD 0 > 0 then
        ("Series has likely concluded.", timeUntilNextEpisode, nextEpisodeNumber)
      else (nextEpisodeInfo, timeUntilNextEpisode, nextEpisodeNumber)
  { englishName := englishName
    coverImage := coverImageUrl
    seasonAndYear := seasonAndYear
    nextEpisodeInfo := nextEpisodeInfo
    nextEpisodeNumber := nextEpisodeNumber
    timeUntilNextEpisode := timeUntilNextEpisode
    isComingSoon := isComingSoon
    siteUrl := animeData.siteUrl }

/-- The call `getAnimeSchedule(animeData)` on a delivered object.  Line 127 reads
`title.english` and line 128 reads `coverImage.large`: when that object is `null` the read
throws a `TypeError` and nothing is returned; with both objects present the result is the
record of `getAnimeSchedule`. -/
def getAnimeScheduleCall (env : Env) (animeData : FetchedMedia) :
    Except JsError ScheduleRecord :=
  match animeData.title with
  | none => .error (env.nullReadError "english")
  | some title =>
    match animeData.coverImage with
    | none => .error (env.nullReadError "large")
    | some coverImage =>
      .ok (getAnimeSchedule env
        { title := title
          coverImage := coverImage
          season := animeData.season
          seasonYear := animeData.seasonYear
          startDate := animeData.startDate
          episodes := animeData.episodes
          status := animeData.status
          siteUrl := animeData.siteUrl
          nextAiringEpisode := animeData.nextAiringEpisode })

/-! ## Card renderer -/

/-- The first branch of `nextEpisodeDisplay`: the next-episode style (clock icon). -/
def nextEpisodeStyle (nextEpisodeInfo : String) : String :=
  "<div class=\"info-section next-episode-info\">\n" ++
  "            <i class=\"fas fa-clock mr-2\"></i>\n" ++
  "            <span class=\"value\">" ++
  nextEpisodeInfo ++
  "</span>\n" ++
  "           </div>"

/-- The second branch of `nextEpisodeDisplay`: the status style (info icon). -/
def statusStyle (nextEpisodeInfo : String) : String :=
  "<div class=\"info-section\">\n" ++
  "            <i class=\"fas fa-info-circle mr-2\"></i>\n" ++
  "            <span class=\"value\">" ++
  nextEpisodeInfo ++
  "</span>\n" ++
  "           </div>"

/-- The local `nextEpisodeDisplay` of `createAnimeCardHTML`. -/
def nextEpisodeDisplay (anime : ScheduleRecord) : String :=
  if jsIncludes anime.nextEpisodeInfo "Ep" then nextEpisodeStyle anime.nextEpisodeInfo
  else statusStyle anime.nextEpisodeInfo

/-- The local `siteUrlDisplay` of `createAnimeCardHTML`. -/
def siteUrlDisplay (anime : ScheduleRecord) : String :=
  if truthyStr anime.siteUrl then
    "<div class=\"info-section\">\n" ++
    "            <i class=\"fas fa-external-link-alt mr-2\"></i>\n" ++
    "            <a href=\"" ++
    anime.siteUrl.getD "" ++
    "\" target=\"_blank\" rel=\"noopener noreferrer\" class=\"value text-purple-300 hover:underline\">\n" ++
    "                Anilist\n" ++
    "            </a>\n" ++
    "           </div>"
  else
    "<div class=\"info-section\">\n" ++
    "            <i class=\"fas fa-external-link-alt mr-2\"></i>\n" ++
    "            <span class=\"value text-gray-400\">Not Available</span>\n" ++
    "           </div>"

/-- The function `createAnimeCardHTML(anime)`. -/
def createAnimeCardHTML (anime : ScheduleRecord) : String :=
  "\n" ++
  "        <div class=\"anime-card rounded-2xl shadow-xl p-5 flex flex-col items-center text-center\">\n" ++
  "            " ++
  "" ++
  " \n" ++
  "            <img src=\"" ++
  anime.coverImage ++
  "\" alt=\"" ++
  anime.englishName ++
  " Cover\" class=\"w-full object-cover rounded-lg mb-4 shadow-lg border-2 border-transparent\">\n" ++
  "            <h3 class=\"text-3xl font-poppins font-bold mb-2 leading-tight\">" ++
  anime.englishName ++
  "</h3>\n" ++
  "            \n" ++
  "            <div class=\"text-sm space-y-3 w-full\">\n" ++
  "                " ++
  nextEpisodeDisplay anime ++
  " \n" ++
  "                \n" ++
  "                " ++
  siteUrlDisplay anime ++
  "\n" ++
  "            </div>\n" ++
  "        </div>\n" ++
  "    "

/-! ## Page state and display -/

/-- The three page regions the script touches: whether each carries the `hidden` class, and
the markup assigned to the results container. -/
structure Dom where
  loadingHidden : Bool
  containerHidden : Bool
  errorHidden : Bool
  containerHTML : String
deriving DecidableEq, Repr

/-- The function `displayAllAnimeDetails(allAnimeDetails)`; `innerHTML +=` is string
concatenation. -/
def displayAllAnimeDetails (allAnimeDetails : List ScheduleRecord) (dom : Dom) : Dom :=
  let dom := { dom with containerHTML := "" }
  let dom :=
    if allAnimeDetails.length = 0 then
      { dom with containerHTML :=
          "<p class=\"text-xl font-inter text-gray-400 text-center col-span-full\">" ++
          "No anime details found for the requested titles. Try adding more!</p>" }
    else
      allAnimeDetails.foldl
        (fun d anime => { d with containerHTML := d.containerHTML ++ createAnimeCardHTML anime })
        dom
  let dom := { dom with loadingHidden := true }
  { dom with containerHidden := false }

/-! ## API client -/

/-- One `console.error` call: the message text and the printed extra argument. -/
structure LogEntry where
  text : String
  detail : String
deriving DecidableEq, Repr

/-- A parsed response body, as far as the script inspects it: the raw text (only logged) and
the outcome of evaluating `data.data.Media` on it, which is the media value (`none` for
`null`) or the `TypeError` raised when `data.data` is missing. -/
structure JsonBody where
  raw : String
  media : Except JsError (Option FetchedMedia)

/-- An HTTP response: its status code and the outcome of `response.json()`, which rejects
with an error when the body is not JSON. -/
structure Response where
  status : Nat
  json : Except JsError JsonBody

/-- The property `response.ok`: the status is in the range 200 to 299. -/
def Response.ok (r : Response) : Bool := 200 ≤ r.status && r.status ≤ 299

/-- What `await fetch(...)` produces: a rejection (network failure) or a response. -/
inductive NetOutcome where
  | failure (error : JsError)
  | response (r : Response)

/-- The `try` block of `fetchAnimeDetails`: its completion (a returned value or a thrown
error) and the lines it logs. -/
def fetchAnimeDetailsTry (animeTitle : String) (net : NetOutcome) :
    Except JsError (Option FetchedMedia) × List LogEntry :=
  match net with
  | .failure error => (.error error, [])
  | .response response =>
    if !response.ok then
      match response.json with
      | .error error => (.error error, [])
      | .ok errorBody =>
        let logs : List LogEntry :=
          [⟨"AniList API Error for \"" ++ animeTitle ++ "\" (Status: " ++
              toString response.status ++ "):", errorBody.raw⟩]
        if response.status = 429 then
          (.error ⟨"Rate limit hit for \"" ++ animeTitle ++ "\". Please wait and try again."⟩,
            logs)
        else (.ok none, logs)
    else
      match response.json with
      | .error error => (.error error, [])
      | .ok data => (data.media, [])

/-- The function `fetchAnimeDetails(animeTitle)`, given what the network does with its one
request: the `try` block wrapped in its `catch`, which logs the error and returns `null`. -/
def fetchAnimeDetails (animeTitle : String) (net : NetOutcome) :
    Except JsError (Option FetchedMedia) × List LogEntry :=
  match fetchAnimeDetailsTry animeTitle net with
  | (.ok value, logs) => (.ok value, logs)
  | (.error error, logs) =>
    (.ok none,
      logs ++ [⟨"Error fetching from AniList API for \"" ++ animeTitle ++ "\":", error.message⟩])

/-! ## Orchestrator -/

/-- The externally visible steps of a run, in order. -/
inductive Event where
  | fetch (title : String)
  | delay (ms : Nat)
deriving DecidableEq, Repr

/-- The locals of `initApp` that the loop updates, with the trace of steps and log lines. -/
structure LoopState where
  fetchedAnimeData : List ScheduleRecord
  hasError : Bool
  events : List Event
  logs : List LogEntry

/-- A fetch function: the completion of the call made at loop index `i` for a title (a
returned value or a thrown error) and the lines it logged. -/
abbrev Fetcher := Nat → String → Except JsError (Option FetchedMedia) × List LogEntry

/-- The `for` loop of `initApp` from index `i` on, over the titles not yet visited;
`length` is `ANIME_TITLES.length`.  The `try` block holds the fetch and, on non-null data,
the call of `getAnimeSchedule`; the `catch` handles an error thrown by either. -/
def initAppLoop (env : Env) (fetch : Fetcher) (length : Nat) :
    Nat → List String → LoopState → LoopState
  | _, [], st => st
  | i, title :: rest, st =>
    let st := { st with events := st.events ++ [Event.fetch title] }
    let (completion, fetchLogs) := fetch i title
    let st := { st with logs := st.logs ++ fetchLogs }
    let st :=
      match completion with
      | .ok (some animeData) =>
        match getAnimeScheduleCall env animeData with
        | .ok formattedData =>
          { st with fetchedAnimeData := st.fetchedAnimeData ++ [formattedData] }
        | .error error =>
          { st with
            logs := st.logs ++
              [⟨"Failed to fetch details for \"" ++ title ++ "\":", error.message⟩]
            hasError := true }
      | .ok none =>
        { st with
          logs := st.logs ++ [⟨"Could not find details for \"" ++ title ++ "\".", ""⟩]
          hasError := true }
      | .error error =>
        { st with
          logs := st.logs ++ [⟨"Failed to fetch details for \"" ++ title ++ "\":", error.message⟩]
          hasError := true }
    let st :=
      if (i : Int) < (length : Int) - 1 then
        { st with events := st.events ++ [Event.delay DELAY_BETWEEN_REQUESTS_MS] }
      else st
    initAppLoop env fetch length (i + 1) rest st

/-- The first three statements of `initApp`: show the loading indicator, hide the results
container and the error banner. -/
def initAppStart (dom : Dom) : Dom :=
  let dom := { dom with loadingHidden := false }
  let dom := { dom with containerHidden := true }
  { dom with errorHidden := true }

/-- What a finished run leaves behind: the page, the array handed to
`displayAllAnimeDetails`, the trace of fetches and delays, and the log. -/
structure AppRun where
  dom : Dom
  displayed : List ScheduleRecord
  events : List Event
  logs : List LogEntry

/-- The function `initApp()`, with the title list and the fetch function as parameters. -/
def initApp (env : Env) (titles : List String) (fetch : Fetcher) (dom : Dom) : AppRun :=
  let dom := initAppStart dom
  let st := initAppLoop env fetch titles.length 0 titles ⟨[], false, [], []⟩
  let dom := if st.hasError then { dom with errorHidden := false } else dom
  let dom := displayAllAnimeDetails st.fetchedAnimeData dom
  { dom := dom, displayed := st.fetchedAnimeData, events := st.events, logs := st.logs }

/-- The page script as loaded: `initApp` over `ANIME_TITLES` with `fetchAnimeDetails`, where
`net i` is what the network does with the request of loop index `i`. -/
def runPage (env : Env) (net : Nat → NetOutcome) (dom : Dom) : AppRun :=
  initApp env ANIME_TITLES (fun i title => fetchAnimeDetails title (net i)) dom

/-! ## The stated behaviour, as definitions

Each definition below follows the wording of a stated property, not the code; the theorems
compare it with the embedding above. -/

/-- The countdown text as stated: `"Already aired"` for a negative duration; otherwise,
with `d`, `h`, `m`, `s` the day, hour, minute and second components, the seconds with
suffix `s` alone when `d = h = m = 0`, else the non-zero ones among the days with suffix
`d`, the hours with suffix `h` and the minutes with suffix `m`, in that order, joined by
single spaces. -/
def countdownSpec (n : Int) : String :=
  if n < 0 then "Already aired"
  else
    let d := n / 86400
    let h := (n % 86400) / 3600
    let m := (n % 3600) / 60
    let s := n % 60
    if d = 0 ∧ h = 0 ∧ m = 0 then toString s ++ "s"
    else
      " ".intercalate
        ((if d ≠ 0 then [toString d ++ "d"] else []) ++
          (if h ≠ 0 then [toString h ++ "h"] else []) ++
          (if m ≠ 0 then [toString m ++ "m"] else []))

/-- Whether an episode count is a positive number. -/
def isPositiveCount : Option Int → Bool
  | some k => decide (0 < k)
  | none => false

/-- The triple (nextEpisodeInfo, timeUntilNextEpisode, nextEpisodeNumber) as stated: the
next-airing record wins whatever the status; without it the countdown and the number are
`"N/A"` and the sentence follows the status, then the episode count. -/
def scheduleTripleSpec (env : Env) (m : RawMedia) : String × String × EpisodeNumber :=
  match m.nextAiringEpisode with
  | some e =>
    let countdown := formatTimeUntilAiring e.timeUntilAiring
    ("Ep " ++ toString e.episode ++ " on " ++ env.toLocaleStringIST (e.airingAt * 1000) ++
        " IST (" ++ countdown ++ ")",
      countdown, EpisodeNumber.number e.episode)
  | none =>
    (if m.status = some "FINISHED" then "Series has concluded."
      else if m.status = some "NOT_YET_RELEASED" then "Not yet aired."
      else if isPositiveCount m.episodes then "Series has likely concluded."
      else "Series information not available.",
      "N/A", EpisodeNumber.text "N/A")

/-- The display name as stated: the first non-empty value among english, romaji, native in
that order, and `"Unknown Title"` when none is. -/
def displayNameSpec (t : MediaTitle) : String :=
  match ([t.english, t.romaji, t.native].filterMap
      (fun o => o.filter (fun s => s != ""))).head? with
  | some s => s
  | none => "Unknown Title"

/-- The season text as stated: empty when the input is absent or the empty string,
otherwise the first character uppercased followed by the remainder lowercased. -/
def formatSeasonSpec (env : Env) (input : Option String) : String :=
  match input with
  | none => ""
  | some s =>
    match s.data with
    | [] => ""
    | c :: rest => env.toUpperCase (String.singleton c) ++ env.toLowerCase (String.mk rest)

/-- The season year as text, the empty string when the year is absent. -/
def yearTextAsStated : Option Int → String
  | some y => toString y
  | none => ""

/-- The season-and-year text read literally from the statement: the formatted season
concatenated with the year text, trimmed. -/
def seasonAndYearAsStated (env : Env) (m : RawMedia) : String :=
  jsTrim (formatSeason env m.season ++ yearTextAsStated m.seasonYear)

/-- The season-and-year text with the separator: the formatted season, one space, and the
year text (empty when the year is absent or zero), trimmed. -/
def seasonAndYearSeparated (env : Env) (m : RawMedia) : String :=
  jsTrim (formatSeason env m.season ++ " " ++
    (match m.seasonYear with
      | some y => if y = 0 then "" else toString y
      | none => ""))

/-- A media object used to evaluate the functions: an airing fall 2025 series. -/
def sampleMedia : RawMedia where
  title := ⟨some "", some "Foo", some "Bar"⟩
  coverImage := ⟨none⟩
  season := some "FALL"
  seasonYear := some 2025
  startDate := ⟨some 2025, some 10, some 4⟩
  episodes := some 12
  status := some "RELEASING"
  siteUrl := some "https://anilist.co/anime/1"
  nextAiringEpisode := some ⟨1700000000, 12, 3725⟩

/-- Whether a fetch completed with non-null data. -/
def fetchSucceeded : Except JsError (Option FetchedMedia) → Bool
  | .ok (some _) => true
  | _ => false

/-- The size of the result collection read literally from the statement: the number of
titles whose fetch returned non-null data. -/
def nonNullFetchCount (fetch : Fetcher) (titles : List String) : Nat :=
  (titles.enum.filter fun p => fetchSucceeded (fetch p.1 p.2).1).length

/-- Whether at least one fetch failed, read literally from the statement: it returned
`null` or threw. -/
def anyFetchFailed (fetch : Fetcher) (titles : List String) : Bool :=
  titles.enum.any fun p => !fetchSucceeded (fetch p.1 p.2).1

/-- The record a title contributes to the result collection: the schedule of its data when
the fetch at its index returned non-null data whose `title` and `coverImage` objects are
both present, nothing otherwise. -/
def recordOf (env : Env) (fetch : Fetcher) (p : Nat × String) : Option ScheduleRecord :=
  match (fetch p.1 p.2).1 with
  | .ok (some data) =>
    match data.title, data.coverImage with
    | some title, some coverImage =>
      some (getAnimeSchedule env
        ⟨title, coverImage, data.season, data.seasonYear, data.startDate, data.episodes,
          data.status, data.siteUrl, data.nextAiringEpisode⟩)
    | _, _ => none
  | _ => none

/-- The result collection: the schedules of the titles whose fetch returned non-null data
with both objects present, in title order. -/
def expectedRecords (env : Env) (fetch : Fetcher) (titles : List String) :
    List ScheduleRecord :=
  titles.enum.filterMap (recordOf env fetch)

/-- Whether a title failed: its fetch returned `null` or threw, or its data lacks the
`title` or the `coverImage` object, on which `getAnimeSchedule` throws. -/
def titleFailed : Except JsError (Option FetchedMedia) → Bool
  | .ok (some data) => data.title.isNone || data.coverImage.isNone
  | _ => true

/-- Whether at least one title failed. -/
def anyTitleFailed (fetch : Fetcher) (titles : List String) : Bool :=
  titles.enum.any fun p => titleFailed (fetch p.1 p.2).1

/-- The markup of a card that precedes its next-episode block. -/
def cardBefore (anime : ScheduleRecord) : String :=
  "\n" ++
  "        <div class=\"anime-card rounded-2xl shadow-xl p-5 flex flex-col items-center text-center\">\n" ++
  "            " ++
  "" ++
  " \n" ++
  "            <img src=\"" ++
  anime.coverImage ++
  "\" alt=\"" ++
  anime.englishName ++
  " Cover\" class=\"w-full object-cover rounded-lg mb-4 shadow-lg border-2 border-transparent\">\n" ++
  "            <h3 class=\"text-3xl font-poppins font-bold mb-2 leading-tight\">" ++
  anime.englishName ++
  "</h3>\n" ++
  "            \n" ++
  "            <div class=\"text-sm space-y-3 w-full\">\n" ++
  "                "

/-- The markup of a card that follows its next-episode block. -/
def cardAfter (anime : ScheduleRecord) : String :=
  " \n" ++
  "                \n" ++
  "                " ++
  siteUrlDisplay anime ++
  "\n" ++
  "            </div>\n" ++
  "        </div>\n" ++
  "    "

/-- A delivered object with non-null data whose `title` object is `null`. -/
def sampleUntitledMedia : FetchedMedia :=
  { FetchedMedia.ofRaw sampleMedia with title := none }

/-- A fetch function that returns `sampleUntitledMedia` for every title. -/
def untitledFetch : Fetcher := fun _ _ => (.ok (some sampleUntitledMedia), [])

/-- The trace as stated: one fetch per title in order, with one delay of
`DELAY_BETWEEN_REQUESTS_MS` between each two consecutive fetches. -/
def expectedEvents (titles : List String) : List Event :=
  (titles.map Event.fetch).intersperse (Event.delay DELAY_BETWEEN_REQUESTS_MS)

/-- A fetch function used to evaluate a run: the call at index 1 returns `null`, the call
at index 3 throws, the others return `sampleMedia`. -/
def sampleFetch : Fetcher := fun i _ =>
  if i = 1 then (.ok none, [])
  else if i = 3 then (.error ⟨"Failed to fetch"⟩, [])
  else (.ok (some (FetchedMedia.ofRaw sampleMedia)), [])

/-- A page as it is before the script runs. -/
def sampleDom : Dom := ⟨false, true, false, ""⟩

/-! ## Lemmas on strings -/

/-- A string that ends in a unit letter is neither empty nor `"Soon"`. -/
theorem unit_suffix_ne (p u : String) (hu : u = "d" ∨ u = "h" ∨ u = "m" ∨ u = "s") :
    p ++ u ≠ "" ∧ p ++ u ≠ "Soon" := by
  have key : ∀ c : Char, c ≠ 'n' → p ++ String.singleton c ≠ "" ∧
      p ++ String.singleton c ≠ "Soon" := by
    intro c hc
    have h3 : (String.singleton c).data = [c] := rfl
    constructor
    · intro h
      have h2 := congrArg String.data h
      have h4 : "".data = [] := rfl
      rw [String.data_append, h3, h4] at h2
      simp at h2
    · intro h
      have h2 := congrArg (fun s => s.data.getLast?) h
      have h4 : "Soon".data.getLast? = some 'n' := rfl
      simp only [String.data_append, h3, h4, List.getLast?_append, List.getLast?_singleton] at h2
      simp at h2
      exact hc h2
  rcases hu with h | h | h | h <;> subst h
  · exact key 'd' (by decide)
  · exact key 'h' (by decide)
  · exact key 'm' (by decide)
  · exact key 's' (by decide)

/-! ## Time formatter -/

/-- For a non-negative duration the stated countdown ends in a unit letter. -/
theorem countdownSpec_unit (n : Int) (hn : 0 ≤ n) :
    ∃ p u, (u = "d" ∨ u = "h" ∨ u = "m" ∨ u = "s") ∧ countdownSpec n = p ++ u := by
  have hd : n / 86400 = 0 ∨ 0 < n / 86400 := by omega
  have hh : n % 86400 / 3600 = 0 ∨ 0 < n % 86400 / 3600 := by omega
  have hm : n % 3600 / 60 = 0 ∨ 0 < n % 3600 / 60 := by omega
  unfold countdownSpec
  rw [if_neg (by omega)]
  rcases hd with hd | hd <;> rcases hh with hh | hh <;> rcases hm with hm | hm <;>
    simp only [hd, hh, hm, ne_of_gt, String.intercalate, String.intercalate.go, ne_eq,
      not_true_eq_false, not_false_eq_true, if_true, if_false, and_self, and_false, false_and,
      List.append_nil, List.nil_append, List.cons_append, List.singleton_append,
      ← String.append_assoc] <;>
    first
      | exact ⟨_, _, Or.inl rfl, rfl⟩
      | exact ⟨_, _, Or.inr (Or.inl rfl), rfl⟩
      | exact ⟨_, _, Or.inr (Or.inr (Or.inl rfl)), rfl⟩
      | exact ⟨_, _, Or.inr (Or.inr (Or.inr rfl)), rfl⟩

/-- For a non-negative duration the code joins the parts the statement lists, before the
`"Soon"` fallback is applied. -/
theorem formatTimeUntilAiring_strOrLit (n : Int) (hn : 0 ≤ n) :
    formatTimeUntilAiring n = strOrLit (countdownSpec n) "Soon" := by
  have h1 : Int.fdiv n (3600 * 24) = n / 86400 := Int.fdiv_eq_ediv n (by norm_num)
  have h2 : Int.tmod n (3600 * 24) = n % 86400 := Int.tmod_eq_emod hn (by norm_num)
  have h3 : Int.tmod n 3600 = n % 3600 := Int.tmod_eq_emod hn (by norm_num)
  have h4 : Int.tmod n 60 = n % 60 := Int.tmod_eq_emod hn (by norm_num)
  have h5 : Int.fdiv (n % 86400) 3600 = n % 86400 / 3600 := Int.fdiv_eq_ediv _ (by norm_num)
  have h6 : Int.fdiv (n % 3600) 60 = n % 3600 / 60 := Int.fdiv_eq_ediv _ (by norm_num)
  have h7 : 0 ≤ n % 60 := by omega
  have hd : n / 86400 = 0 ∨ 0 < n / 86400 := by omega
  have hh : n % 86400 / 3600 = 0 ∨ 0 < n % 86400 / 3600 := by omega
  have hm : n % 3600 / 60 = 0 ∨ 0 < n % 3600 / 60 := by omega
  unfold formatTimeUntilAiring countdownSpec
  rw [if_neg (by omega), if_neg (by omega)]
  simp only [h1, h2, h3, h4, h5, h6]
  rcases hd with hd | hd <;> rcases hh with hh | hh <;> rcases hm with hm | hm <;>
    simp [hd, hh, hm, h7, ne_of_gt, jsJoin, String.intercalate, String.intercalate.go]

/-- The code and the stated countdown agree on every integer, and the result is never empty
and never the fallback. -/
theorem formatTimeUntilAiring_facts (n : Int) :
    formatTimeUntilAiring n = countdownSpec n ∧ formatTimeUntilAiring n ≠ "" ∧
      formatTimeUntilAiring n ≠ "Soon" := by
  by_cases hn : n < 0
  · have h1 : formatTimeUntilAiring n = "Already aired" := by simp [formatTimeUntilAiring, hn]
    have h2 : countdownSpec n = "Already aired" := by simp [countdownSpec, hn]
    rw [h1, h2]
    exact ⟨rfl, by decide, by decide⟩
  · have hn0 : 0 ≤ n := by omega
    obtain ⟨p, u, hu, hpu⟩ := countdownSpec_unit n hn0
    have hne := unit_suffix_ne p u hu
    have h1 : formatTimeUntilAiring n = countdownSpec n := by
      rw [formatTimeUntilAiring_strOrLit n hn0, hpu]
      simp [strOrLit, hne.1]
    rw [h1, hpu]
    exact ⟨rfl, hne.1, hne.2⟩

/-- C2: for every integer `n`, `formatTimeUntilAiring n` is the stated countdown
(`"Already aired"` when `n < 0`; otherwise the non-zero ones among days, hours and minutes
joined by single spaces, or the seconds alone when all three are zero), it is never the
empty string and never the fallback `"Soon"`, and the six listed values hold. -/
theorem formatTimeUntilAiring_countdown :
    (∀ n : Int, formatTimeUntilAiring n = countdownSpec n ∧ formatTimeUntilAiring n ≠ "" ∧
      formatTimeUntilAiring n ≠ "Soon") ∧
    formatTimeUntilAiring (-5) = "Already aired" ∧
    formatTimeUntilAiring 0 = "0s" ∧
    formatTimeUntilAiring 59 = "59s" ∧
    formatTimeUntilAiring 60 = "1m" ∧
    formatTimeUntilAiring 3661 = "1h 1m" ∧
    formatTimeUntilAiring 90061 = "1d 1h 1m" :=
  ⟨formatTimeUntilAiring_facts, by decide, by decide, by decide, by decide, by decide,
    by decide⟩

/-! ## Schedule builder -/

/-- The triple of `getAnimeSchedule` is the stated one, for every media object. -/
theorem scheduleTriple_eq_spec (env : Env) (m : RawMedia) :
    ((getAnimeSchedule env m).nextEpisodeInfo, (getAnimeSchedule env m).timeUntilNextEpisode,
      (getAnimeSchedule env m).nextEpisodeNumber) = scheduleTripleSpec env m := by
  unfold getAnimeSchedule scheduleTripleSpec
  cases hnext : m.nextAiringEpisode with
  | some e => simp [EpisodeNumber.render]
  | none =>
    by_cases h1 : m.status = some "FINISHED"
    · simp [h1]
    · by_cases h2 : m.status = some "NOT_YET_RELEASED"
      · simp [h2]
      · cases hep : m.episodes with
        | none => simp [h1, h2, truthyNum, isPositiveCount]
        | some k =>
          by_cases hk : 0 < k
          · have hk0 : k ≠ 0 := by omega
            simp [h1, h2, truthyNum, isPositiveCount, hk, hk0]
          · simp [h1, h2, truthyNum, isPositiveCount, hk]

/-- C1: for every media object the triple (nextEpisodeInfo, timeUntilNextEpisode,
nextEpisodeNumber) of `getAnimeSchedule` is the stated one: with a next-airing record,
whatever the status, the episode, its formatted countdown and the sentence
`Ep (episode) on (IST timestamp) IST ((countdown))`; without one, `"N/A"` twice and the
sentence chosen by status, then by a positive episode count.  Episode 12 with 3725 seconds
to go reads `1h 2m`. -/
theorem getAnimeSchedule_triple :
    (∀ (env : Env) (m : RawMedia),
      ((getAnimeSchedule env m).nextEpisodeInfo, (getAnimeSchedule env m).timeUntilNextEpisode,
        (getAnimeSchedule env m).nextEpisodeNumber) = scheduleTripleSpec env m) ∧
    (∀ (env : Env) (m : RawMedia) (airingAt : Int),
      (getAnimeSchedule env { m with nextAiringEpisode := some ⟨airingAt, 12, 3725⟩ }).nextEpisodeInfo
          = "Ep 12 on " ++ env.toLocaleStringIST (airingAt * 1000) ++ " IST (1h 2m)" ∧
      (getAnimeSchedule env
          { m with nextAiringEpisode := some ⟨airingAt, 12, 3725⟩ }).timeUntilNextEpisode
          = "1h 2m") := by
  refine ⟨scheduleTriple_eq_spec, ?_⟩
  intro env m airingAt
  have h := scheduleTriple_eq_spec env { m with nextAiringEpisode := some ⟨airingAt, 12, 3725⟩ }
  have h12 : toString (12 : Int) = "12" := by decide
  have hc : formatTimeUntilAiring 3725 = "1h 2m" := by decide
  have ha : "Ep " ++ "12" ++ " on " = "Ep 12 on " := by decide
  have hb : " IST (" ++ ("1h 2m" ++ ")") = " IST (1h 2m)" := by decide
  simp only [scheduleTripleSpec, h12, hc, Prod.mk.injEq, ha] at h
  rw [String.append_assoc _ "1h 2m" ")", String.append_assoc _ " IST (" _, hb] at h
  exact ⟨h.1, h.2.1⟩

/-- C5: for every media object the `englishName` of the record is the first non-empty value
among `title.english`, `title.romaji`, `title.native` in that order, and `"Unknown Title"`
when all three are empty or absent; english `""`, romaji `"Foo"`, native `"Bar"` gives
`"Foo"`. -/
theorem getAnimeSchedule_englishName :
    (∀ (env : Env) (m : RawMedia),
      (getAnimeSchedule env m).englishName = displayNameSpec m.title) ∧
    (∀ (env : Env) (m : RawMedia),
      (getAnimeSchedule env
        { m with title := ⟨some "", some "Foo", some "Bar"⟩ }).englishName = "Foo") ∧
    (∀ (env : Env) (m : RawMedia),
      (getAnimeSchedule env { m with title := ⟨some "", none, some ""⟩ }).englishName
        = "Unknown Title") := by
  have main : ∀ (env : Env) (m : RawMedia),
      (getAnimeSchedule env m).englishName = displayNameSpec m.title := by
    intro env m
    unfold getAnimeSchedule displayNameSpec
    rcases m.title with ⟨e, r, n⟩
    rcases e with _ | e <;> rcases r with _ | r <;> rcases n with _ | n <;>
      simp [orLit, orStr, truthyStr, Option.filter] <;>
      split_ifs <;> simp_all
  refine ⟨main, ?_, ?_⟩
  · intro env m
    rw [main]
    show displayNameSpec ⟨some "", some "Foo", some "Bar"⟩ = "Foo"
    decide
  · intro env m
    rw [main]
    show displayNameSpec ⟨some "", none, some ""⟩ = "Unknown Title"
    decide

/-- C9 (as stated, refuted): season `FALL` with year 2025 gives `"Fall 2025"`, while the
formatted season concatenated with the year and trimmed is `"Fall2025"`; and with year 0
the record has `"Fall"`, the year text being dropped although the year is present. -/
theorem seasonAndYear_not_plain_concat :
    (getAnimeSchedule sampleEnv sampleMedia).seasonAndYear = "Fall 2025" ∧
    seasonAndYearAsStated sampleEnv sampleMedia = "Fall2025" ∧
    (getAnimeSchedule sampleEnv sampleMedia).seasonAndYear ≠
      seasonAndYearAsStated sampleEnv sampleMedia ∧
    (getAnimeSchedule sampleEnv { sampleMedia with seasonYear := some 0 }).seasonAndYear
      = "Fall" ∧
    seasonAndYearAsStated sampleEnv { sampleMedia with seasonYear := some 0 } = "Fall0" := by
  decide

/-- C9 (amended): for every media object the `seasonAndYear` of the record is the formatted
season, a single space, and the season year (the empty string if the year is absent or
zero), trimmed of surrounding whitespace; so `FALL` 2025 gives `"Fall 2025"`, no season
gives `"2025"` and no year gives `"Fall"`. -/
theorem getAnimeSchedule_seasonAndYear :
    (∀ (env : Env) (m : RawMedia),
      (getAnimeSchedule env m).seasonAndYear = seasonAndYearSeparated env m) ∧
    (getAnimeSchedule sampleEnv sampleMedia).seasonAndYear = "Fall 2025" ∧
    (getAnimeSchedule sampleEnv { sampleMedia with season := none }).seasonAndYear = "2025" ∧
    (getAnimeSchedule sampleEnv { sampleMedia with seasonYear := none }).seasonAndYear
      = "Fall" := by
  refine ⟨?_, by decide, by decide, by decide⟩
  intro env m
  unfold getAnimeSchedule seasonAndYearSeparated
  cases hy : m.seasonYear with
  | none => simp [truthyNum]
  | some y =>
    by_cases h0 : y = 0
    · simp [truthyNum, h0]
    · simp [truthyNum, h0]

/-! ## Season formatter -/

/-- C10: for every input `formatSeason` returns the empty string when the input is absent
or the empty string, and otherwise the first character uppercased followed by the remainder
lowercased; `"FALL"` gives `"Fall"`. -/
theorem formatSeason_spec :
    (∀ (env : Env) (input : Option String),
      formatSeason env input = formatSeasonSpec env input) ∧
    (∀ env : Env, formatSeason env none = "" ∧ formatSeason env (some "") = "") ∧
    formatSeason sampleEnv (some "FALL") = "Fall" := by
  refine ⟨?_, ?_, by decide⟩
  · intro env input
    cases input with
    | none => simp [formatSeason, formatSeasonSpec, truthyStr]
    | some s =>
      rcases s with ⟨l⟩
      cases l with
      | nil =>
        have h : (String.mk []) = "" := rfl
        simp [formatSeason, formatSeasonSpec, truthyStr, h]
      | cons c rest =>
        have h : (String.mk (c :: rest) != "") = true := by
          simp only [bne_iff_ne, ne_eq]
          intro h
          have h2 := congrArg String.data h
          have h3 : "".data = [] := rfl
          rw [h3] at h2
          simp at h2
        have hs : String.singleton c = String.mk [c] := rfl
        simp [formatSeason, formatSeasonSpec, truthyStr, h, charAt0, slice1, hs]
  · intro env
    constructor
    · simp [formatSeason, truthyStr]
    · simp [formatSeason, truthyStr]

/-! ## Card renderer -/

/-- A string that starts with `Ep ` contains `Ep`. -/
theorem jsIncludes_Ep (x : String) : jsIncludes ("Ep " ++ x) "Ep" = true := by
  unfold jsIncludes
  rw [String.data_append]
  show includesChars ('E' :: 'p' :: ' ' :: x.data) ['E', 'p'] = true
  simp [includesChars, List.isPrefixOf]

/-- The two styles never produce the same markup: they differ in the opening tag. -/
theorem nextEpisodeStyle_ne_statusStyle (s t : String) : nextEpisodeStyle s ≠ statusStyle t := by
  intro h
  have h2 := congrArg (fun x => x.data.take 26) h
  simp only [nextEpisodeStyle, statusStyle, String.append_assoc, String.data_append] at h2
  rw [List.take_append_of_le_length (by decide), List.take_append_of_le_length (by decide)] at h2
  revert h2
  decide

/-- The card is the markup before the block, the next-episode block, and the markup after. -/
theorem createAnimeCardHTML_eq (anime : ScheduleRecord) :
    createAnimeCardHTML anime = cardBefore anime ++ nextEpisodeDisplay anime ++ cardAfter anime := by
  simp only [createAnimeCardHTML, cardBefore, cardAfter, String.append_assoc]

/-- Two cards of one record that hold different blocks are different. -/
theorem card_block_injective (anime : ScheduleRecord) (x y : String)
    (h : cardBefore anime ++ x ++ cardAfter anime = cardBefore anime ++ y ++ cardAfter anime) :
    x = y := by
  have h2 := congrArg String.data h
  simp only [String.data_append, List.append_assoc] at h2
  have h3 := List.append_cancel_right (List.append_cancel_left h2)
  exact String.ext h3

/-- For a record of `getAnimeSchedule` the test for `Ep` succeeds exactly when the media
object had a next-airing record. -/
theorem jsIncludes_Ep_schedule (env : Env) (m : RawMedia) :
    jsIncludes (getAnimeSchedule env m).nextEpisodeInfo "Ep" = m.nextAiringEpisode.isSome := by
  have c1 : jsIncludes "Series has concluded." "Ep" = false := by decide
  have c2 : jsIncludes "Not yet aired." "Ep" = false := by decide
  have c3 : jsIncludes "Series has likely concluded." "Ep" = false := by decide
  have c4 : jsIncludes "Series information not available." "Ep" = false := by decide
  have h := scheduleTriple_eq_spec env m
  have h1 : (getAnimeSchedule env m).nextEpisodeInfo = (scheduleTripleSpec env m).1 := by
    rw [← h]
  rw [h1]
  unfold scheduleTripleSpec
  cases m.nextAiringEpisode with
  | some e =>
    simp only [String.append_assoc, Option.isSome_some]
    exact jsIncludes_Ep _
  | none =>
    simp only [Option.isSome_none]
    split_ifs
    · exact c1
    · exact c2
    · exact c3
    · exact c4

/-- C8: for every record produced by `getAnimeSchedule`, the card `createAnimeCardHTML`
returns holds the sentence in the next-episode style (the branch taken when
`nextEpisodeInfo` contains `"Ep"`) if and only if the media object had a next-airing
record, and in the status style otherwise; a card with any of the four status-only
sentences holds it in the status style, and the cards of the two styles never coincide. -/
theorem createAnimeCardHTML_style :
    (∀ (env : Env) (m : RawMedia),
      createAnimeCardHTML (getAnimeSchedule env m) =
        cardBefore (getAnimeSchedule env m) ++
          (if m.nextAiringEpisode.isSome = true then
            nextEpisodeStyle (getAnimeSchedule env m).nextEpisodeInfo
          else statusStyle (getAnimeSchedule env m).nextEpisodeInfo) ++
          cardAfter (getAnimeSchedule env m)) ∧
    (∀ (env : Env) (m : RawMedia),
      (jsIncludes (getAnimeSchedule env m).nextEpisodeInfo "Ep" = true ↔
        m.nextAiringEpisode.isSome = true) ∧
      (createAnimeCardHTML (getAnimeSchedule env m) =
          cardBefore (getAnimeSchedule env m) ++
            nextEpisodeStyle (getAnimeSchedule env m).nextEpisodeInfo ++
            cardAfter (getAnimeSchedule env m) ↔
        m.nextAiringEpisode.isSome = true)) ∧
    (∀ r : ScheduleRecord,
      createAnimeCardHTML { r with nextEpisodeInfo := "Series has concluded." }
        = cardBefore r ++ statusStyle "Series has concluded." ++ cardAfter r ∧
      createAnimeCardHTML { r with nextEpisodeInfo := "Not yet aired." }
        = cardBefore r ++ statusStyle "Not yet aired." ++ cardAfter r ∧
      createAnimeCardHTML { r with nextEpisodeInfo := "Series has likely concluded." }
        = cardBefore r ++ statusStyle "Series has likely concluded." ++ cardAfter r ∧
      createAnimeCardHTML { r with nextEpisodeInfo := "Series information not available." }
        = cardBefore r ++ statusStyle "Series information not available." ++ cardAfter r) ∧
    (∀ (r : ScheduleRecord) (s t : String),
      cardBefore r ++ nextEpisodeStyle s ++ cardAfter r ≠
        cardBefore r ++ statusStyle t ++ cardAfter r) := by
  have c1 : jsIncludes "Series has concluded." "Ep" = false := by decide
  have c2 : jsIncludes "Not yet aired." "Ep" = false := by decide
  have c3 : jsIncludes "Series has likely concluded." "Ep" = false := by decide
  have c4 : jsIncludes "Series information not available." "Ep" = false := by decide
  have hne : ∀ (r : ScheduleRecord) (s t : String),
      cardBefore r ++ nextEpisodeStyle s ++ cardAfter r ≠
        cardBefore r ++ statusStyle t ++ cardAfter r :=
    fun r s t h => nextEpisodeStyle_ne_statusStyle s t (card_block_injective r _ _ h)
  have main : ∀ (env : Env) (m : RawMedia),
      createAnimeCardHTML (getAnimeSchedule env m) =
        cardBefore (getAnimeSchedule env m) ++
          (if m.nextAiringEpisode.isSome = true then
            nextEpisodeStyle (getAnimeSchedule env m).nextEpisodeInfo
          else statusStyle (getAnimeSchedule env m).nextEpisodeInfo) ++
          cardAfter (getAnimeSchedule env m) := by
    intro env m
    rw [createAnimeCardHTML_eq]
    unfold nextEpisodeDisplay
    rw [jsIncludes_Ep_schedule]
  refine ⟨main, ?_, ?_, hne⟩
  · intro env m
    refine ⟨by rw [jsIncludes_Ep_schedule], ?_⟩
    rw [main]
    cases hs : m.nextAiringEpisode.isSome
    · simp only [Bool.false_eq_true, if_false, iff_false]
      exact fun h => hne _ _ _ h.symm
    · simp
  · intro r
    refine ⟨?_, ?_, ?_, ?_⟩ <;> rw [createAnimeCardHTML_eq] <;>
      simp [nextEpisodeDisplay, c1, c2, c3, c4, cardBefore, cardAfter, siteUrlDisplay]

/-! ## Orchestrator -/

/-- The call of `getAnimeSchedule` on a delivered object, by the presence of its objects. -/
theorem getAnimeScheduleCall_toOption (env : Env) (data : FetchedMedia) :
    (getAnimeScheduleCall env data).toOption =
      (match data.title, data.coverImage with
        | some title, some coverImage =>
          some (getAnimeSchedule env
            ⟨title, coverImage, data.season, data.seasonYear, data.startDate, data.episodes,
              data.status, data.siteUrl, data.nextAiringEpisode⟩)
        | _, _ => none) := by
  unfold getAnimeScheduleCall
  rcases data.title with _ | t <;> rcases data.coverImage with _ | c <;> rfl

/-- On a delivered object with both objects present the call returns the record. -/
theorem getAnimeScheduleCall_ofRaw (env : Env) (m : RawMedia) :
    getAnimeScheduleCall env (FetchedMedia.ofRaw m) = .ok (getAnimeSchedule env m) := rfl

/-- The loop appends to `fetchedAnimeData` the records of the titles it visits. -/
theorem initAppLoop_fetched (env : Env) (fetch : Fetcher) (n : Nat) :
    ∀ (titles : List String) (i : Nat) (st : LoopState),
      (initAppLoop env fetch n i titles st).fetchedAnimeData =
        st.fetchedAnimeData ++ (titles.enumFrom i).filterMap (recordOf env fetch) := by
  intro titles
  induction titles with
  | nil => intro i st; simp [initAppLoop]
  | cons t rest ih =>
    intro i st
    rw [initAppLoop, ih]
    rcases h : fetch i t with ⟨completion, logs⟩
    rcases completion with e | (_ | d)
    · simp only [List.enumFrom_cons, List.filterMap_cons, recordOf, h]
      split_ifs <;> simp
    · simp only [List.enumFrom_cons, List.filterMap_cons, recordOf, h]
      split_ifs <;> simp
    · have hd := getAnimeScheduleCall_toOption env d
      simp only [List.enumFrom_cons, List.filterMap_cons, recordOf, h]
      rw [← hd]
      rcases hc : getAnimeScheduleCall env d with e | r <;>
        simp only [Except.toOption] <;> split_ifs <;> simp

/-- The loop sets `hasError` exactly when one of the titles it visits fails. -/
theorem initAppLoop_hasError (env : Env) (fetch : Fetcher) (n : Nat) :
    ∀ (titles : List String) (i : Nat) (st : LoopState),
      (initAppLoop env fetch n i titles st).hasError =
        (st.hasError ||
          (titles.enumFrom i).any fun p => titleFailed (fetch p.1 p.2).1) := by
  intro titles
  induction titles with
  | nil => intro i st; simp [initAppLoop]
  | cons t rest ih =>
    intro i st
    rw [initAppLoop, ih]
    rcases h : fetch i t with ⟨completion, logs⟩
    rcases completion with e | (_ | d)
    · simp only [List.enumFrom_cons, List.any_cons, titleFailed, h]
      split_ifs <;> simp
    · simp only [List.enumFrom_cons, List.any_cons, titleFailed, h]
      split_ifs <;> simp
    · simp only [List.enumFrom_cons, List.any_cons, titleFailed, h, getAnimeScheduleCall]
      rcases d.title with _ | title <;> rcases d.coverImage with _ | cover <;>
        simp only [Option.isNone_none, Option.isNone_some, Bool.or_false, Bool.or_true,
          Bool.true_or, Bool.false_or] <;>
        split_ifs <;> simp

/-- The loop appends one fetch per title it visits, separated by single delays, when
`length` is the length of the whole title list. -/
theorem initAppLoop_events (env : Env) (fetch : Fetcher) (n : Nat) :
    ∀ (titles : List String) (i : Nat) (st : LoopState), n = i + titles.length →
      (initAppLoop env fetch n i titles st).events = st.events ++ expectedEvents titles := by
  intro titles
  induction titles with
  | nil => intro i st _; simp [initAppLoop, expectedEvents]
  | cons t rest ih =>
    intro i st hn
    rw [initAppLoop, ih _ _ (by simp only [List.length_cons] at hn; omega)]
    rcases h : fetch i t with ⟨completion, logs⟩
    cases rest with
    | nil =>
      have hc : ¬ ((i : Int) < (n : Int) - 1) := by
        simp only [List.length_cons, List.length_nil] at hn; omega
      rcases completion with e | (_ | d)
      · simp [expectedEvents, hc]
      · simp [expectedEvents, hc]
      · rcases hd : getAnimeScheduleCall env d with e | r <;> simp [expectedEvents, hc, hd]
    | cons r rs =>
      have hc : (i : Int) < (n : Int) - 1 := by
        simp only [List.length_cons] at hn; omega
      rcases completion with e | (_ | d)
      · simp [expectedEvents, hc]
      · simp [expectedEvents, hc]
      · rcases hd : getAnimeScheduleCall env d with e | r <;> simp [expectedEvents, hc, hd]

/-- The stated trace of `k + 1` titles holds exactly `k` delays. -/
theorem expectedEvents_count (titles : List String) :
    (expectedEvents titles).count (Event.delay DELAY_BETWEEN_REQUESTS_MS) =
      titles.length - 1 := by
  induction titles with
  | nil => simp [expectedEvents]
  | cons t rest ih =>
    cases rest with
    | nil => simp [expectedEvents]
    | cons r rs =>
      simp only [expectedEvents, List.map_cons, List.intersperse_cons₂, List.length_cons] at ih ⊢
      rw [List.count_cons, List.count_cons, ih]
      simp

/-- The stated trace starts with the fetch of the first title. -/
theorem expectedEvents_head (titles : List String) :
    (expectedEvents titles).head? = titles.head?.map Event.fetch := by
  cases titles with
  | nil => simp [expectedEvents]
  | cons t rest => cases rest <;> simp [expectedEvents]

/-- The stated trace ends with the fetch of the last title. -/
theorem expectedEvents_getLast (titles : List String) :
    (expectedEvents titles).getLast? = titles.getLast?.map Event.fetch := by
  induction titles with
  | nil => simp [expectedEvents]
  | cons t rest ih =>
    cases rest with
    | nil => simp [expectedEvents]
    | cons r rs =>
      simp only [expectedEvents, List.map_cons, List.intersperse_cons₂,
        List.getLast?_cons_cons] at ih ⊢
      rw [List.getLast?_cons, ih]
      cases hl : (r :: rs).getLast? with
      | none => simp at hl
      | some x => simp

/-- Rendering the cards leaves the error banner as it was. -/
theorem displayAllAnimeDetails_errorHidden (recs : List ScheduleRecord) (dom : Dom) :
    (displayAllAnimeDetails recs dom).errorHidden = dom.errorHidden := by
  have fold : ∀ (l : List ScheduleRecord) (d : Dom),
      (l.foldl (fun d anime =>
        { d with containerHTML := d.containerHTML ++ createAnimeCardHTML anime }) d).errorHidden
        = d.errorHidden := by
    intro l
    induction l with
    | nil => intro d; rfl
    | cons a l ih => intro d; rw [List.foldl_cons, ih]
  unfold displayAllAnimeDetails
  by_cases h : recs.length = 0
  · simp [h]
  · simp [h, fold]

/-- A finished run, in terms of the result collection, the failure flag and the trace. -/
theorem initApp_eq (env : Env) (titles : List String) (fetch : Fetcher) (dom : Dom) :
    (initApp env titles fetch dom).displayed = expectedRecords env fetch titles ∧
    (initApp env titles fetch dom).events = expectedEvents titles ∧
    (initApp env titles fetch dom).dom =
      displayAllAnimeDetails (expectedRecords env fetch titles)
        (if anyTitleFailed fetch titles = true then
          { initAppStart dom with errorHidden := false }
        else initAppStart dom) := by
  have hf := initAppLoop_fetched env fetch titles.length titles 0 ⟨[], false, [], []⟩
  have he := initAppLoop_hasError env fetch titles.length titles 0 ⟨[], false, [], []⟩
  have hv := initAppLoop_events env fetch titles.length titles 0 ⟨[], false, [], []⟩ (by simp)
  simp only [List.nil_append, Bool.false_or] at hf he hv
  refine ⟨?_, ?_, ?_⟩
  · simp only [initApp, hf, expectedRecords, List.enum]
  · simp only [initApp, hv]
  · simp only [initApp, hf, he, expectedRecords, anyTitleFailed, List.enum]

/-- C3 (as stated, refuted): a title whose fetch returned non-null data with a `null`
`title` object leaves no record: `getAnimeSchedule` throws inside the `try` of `initApp`,
so the collection is empty although one fetch returned non-null data. -/
theorem initApp_drops_non_null_data :
    (untitledFetch 0 "Bad Girl").1 = .ok (some sampleUntitledMedia) ∧
    nonNullFetchCount untitledFetch ["Bad Girl"] = 1 ∧
    (initApp sampleEnv ["Bad Girl"] untitledFetch sampleDom).displayed = [] ∧
    (initApp sampleEnv ["Bad Girl"] untitledFetch sampleDom).displayed.length ≠
      nonNullFetchCount untitledFetch ["Bad Girl"] := by
  refine ⟨rfl, by decide, by decide, by decide⟩

/-- C3 (amended): for every title list and every outcome of the per-title fetches, the
collection `initApp` passes to `displayAllAnimeDetails` is exactly the list of
`getAnimeSchedule(data)` for the titles whose fetch returned non-null data with its `title`
and `coverImage` objects present, in title order; any other title leaves no placeholder and
does not stop the later ones: for titles A, B, C where the fetch of B returns `null`, throws,
or returns data without a `title` object, the collection is the records of A and C. -/
theorem initApp_displayed :
    (∀ (env : Env) (titles : List String) (fetch : Fetcher) (dom : Dom),
      (initApp env titles fetch dom).displayed = expectedRecords env fetch titles) ∧
    (∀ (env : Env) (a b c : String) (dA dC : RawMedia) (dom : Dom),
      (initApp env [a, b, c]
        (fun i _ =>
          if i = 0 then (.ok (some (FetchedMedia.ofRaw dA)), [])
          else if i = 1 then (.ok none, [])
          else (.ok (some (FetchedMedia.ofRaw dC)), [])) dom).displayed
        = [getAnimeSchedule env dA, getAnimeSchedule env dC]) ∧
    (∀ (env : Env) (a b c : String) (dA dC : RawMedia) (error : JsError) (dom : Dom),
      (initApp env [a, b, c]
        (fun i _ =>
          if i = 0 then (.ok (some (FetchedMedia.ofRaw dA)), [])
          else if i = 1 then (.error error, [])
          else (.ok (some (FetchedMedia.ofRaw dC)), [])) dom).displayed
        = [getAnimeSchedule env dA, getAnimeSchedule env dC]) ∧
    (∀ (env : Env) (a b c : String) (dA dB dC : RawMedia) (dom : Dom),
      (initApp env [a, b, c]
        (fun i _ =>
          if i = 0 then (.ok (some (FetchedMedia.ofRaw dA)), [])
          else if i = 1 then (.ok (some { FetchedMedia.ofRaw dB with title := none }), [])
          else (.ok (some (FetchedMedia.ofRaw dC)), [])) dom).displayed
        = [getAnimeSchedule env dA, getAnimeSchedule env dC]) := by
  refine ⟨fun env titles fetch dom => (initApp_eq env titles fetch dom).1, ?_, ?_, ?_⟩
  · intro env a b c dA dC dom
    rw [(initApp_eq _ _ _ _).1]
    simp [expectedRecords, List.enum, recordOf, FetchedMedia.ofRaw]
  · intro env a b c dA dC error dom
    rw [(initApp_eq _ _ _ _).1]
    simp [expectedRecords, List.enum, recordOf, FetchedMedia.ofRaw]
  · intro env a b c dA dB dC dom
    rw [(initApp_eq _ _ _ _).1]
    simp [expectedRecords, List.enum, recordOf, FetchedMedia.ofRaw]

/-- C6 (as stated, refuted): with one title whose fetch returned non-null data with a
`null` `title` object, no fetch returned `null` or threw, and yet the error banner is
revealed when `initApp` finishes. -/
theorem initApp_banner_without_fetch_failure :
    anyFetchFailed untitledFetch ["Bad Girl"] = false ∧
    (initApp sampleEnv ["Bad Girl"] untitledFetch sampleDom).dom.errorHidden = false := by
  refine ⟨by decide, by decide⟩

/-- C6 (amended): for every title list and every outcome of the per-title fetches, the
error banner is hidden when the run starts, and when `initApp` finishes it is revealed if
and only if at least one title failed: its fetch returned `null` or threw, or
`getAnimeSchedule` threw on its data because the `title` or `coverImage` object is `null`;
it is still hidden when no title failed. -/
theorem initApp_errorBanner (env : Env) (titles : List String) (fetch : Fetcher) (dom : Dom) :
    (initAppStart dom).errorHidden = true ∧
    ((initApp env titles fetch dom).dom.errorHidden = false ↔
      anyTitleFailed fetch titles = true) ∧
    ((initApp env titles fetch dom).dom.errorHidden = true ↔
      anyTitleFailed fetch titles = false) := by
  have hstart : (initAppStart dom).errorHidden = true := rfl
  have h : (initApp env titles fetch dom).dom.errorHidden = !anyTitleFailed fetch titles := by
    rw [(initApp_eq env titles fetch dom).2.2, displayAllAnimeDetails_errorHidden]
    cases anyTitleFailed fetch titles <;> simp [hstart]
  refine ⟨hstart, ?_, ?_⟩ <;> rw [h] <;> cases anyTitleFailed fetch titles <;> simp

/-- C7: for every list of `N ≥ 1` titles and every outcome of the fetches, the trace of
`initApp` is one fetch per title in order with one delay of `DELAY_BETWEEN_REQUESTS_MS`
between each two consecutive fetches: exactly `N - 1` delays, the first step being the
fetch of the first title and the last step the fetch of the last title. -/
theorem initApp_delays (env : Env) (titles : List String) (fetch : Fetcher) (dom : Dom)
    (hN : 1 ≤ titles.length) :
    (initApp env titles fetch dom).events = expectedEvents titles ∧
    (initApp env titles fetch dom).events.count (Event.delay DELAY_BETWEEN_REQUESTS_MS) + 1
      = titles.length ∧
    (initApp env titles fetch dom).events.head? = titles.head?.map Event.fetch ∧
    (initApp env titles fetch dom).events.getLast? = titles.getLast?.map Event.fetch := by
  rw [(initApp_eq env titles fetch dom).2.1]
  refine ⟨rfl, ?_, expectedEvents_head titles, expectedEvents_getLast titles⟩
  rw [expectedEvents_count]
  omega

/-- C7 at the configured title list: five fetches, four delays of 1000 ms between them. -/
theorem initApp_delays_witness :
    1 ≤ ANIME_TITLES.length ∧
    ((initApp sampleEnv ANIME_TITLES sampleFetch sampleDom).events = expectedEvents ANIME_TITLES ∧
      (initApp sampleEnv ANIME_TITLES sampleFetch sampleDom).events.count
        (Event.delay DELAY_BETWEEN_REQUESTS_MS) + 1 = ANIME_TITLES.length ∧
      (initApp sampleEnv ANIME_TITLES sampleFetch sampleDom).events.head?
        = ANIME_TITLES.head?.map Event.fetch ∧
      (initApp sampleEnv ANIME_TITLES sampleFetch sampleDom).events.getLast?
        = ANIME_TITLES.getLast?.map Event.fetch) :=
  ⟨by decide, initApp_delays sampleEnv ANIME_TITLES sampleFetch sampleDom (by decide)⟩

/-! ## API client -/

/-- C4 (as stated, refuted): on a 429 answer `fetchAnimeDetails` returns `null`; it does not
fail with the rate-limit error, which its own `catch` has logged. -/
theorem fetchAnimeDetails_429_returns_null :
    (fetchAnimeDetails "Bad Girl" (.response ⟨429, .ok ⟨"", .ok none⟩⟩)).1 = .ok none ∧
    (fetchAnimeDetails "Bad Girl" (.response ⟨429, .ok ⟨"", .ok none⟩⟩)).1 ≠
      .error ⟨"Rate limit hit for \"Bad Girl\". Please wait and try again."⟩ ∧
    (fetchAnimeDetails "Bad Girl" (.response ⟨429, .ok ⟨"", .ok none⟩⟩)).2 =
      [⟨"AniList API Error for \"Bad Girl\" (Status: 429):", ""⟩,
        ⟨"Error fetching from AniList API for \"Bad Girl\":",
          "Rate limit hit for \"Bad Girl\". Please wait and try again."⟩] := by
  refine ⟨rfl, ?_, rfl⟩
  intro h
  cases h

/-- C4 (amended): for every title, when the endpoint answers with a non-2xx status,
`fetchAnimeDetails` returns `null`, for 429 as for every other such status, and never fails.
Inside its `try` block the error body is parsed first: when it is not JSON the parse error
is raised, whatever the status; when it is JSON and the status is 429 the rate-limit error
carrying the title is raised; for any other status nothing is raised.  A raised error is
logged by the enclosing `catch`, after the line that reports the parsed error body. -/
theorem fetchAnimeDetails_non2xx (animeTitle : String) (response : Response)
    (hok : response.ok = false) :
    (fetchAnimeDetails animeTitle (.response response)).1 = .ok none ∧
    (fetchAnimeDetailsTry animeTitle (.response response)).1 =
      (match response.json with
        | .error error => .error error
        | .ok _ =>
          if response.status = 429 then
            .error ⟨"Rate limit hit for \"" ++ animeTitle ++ "\". Please wait and try again."⟩
          else .ok none) ∧
    (fetchAnimeDetails animeTitle (.response response)).2 =
      (match response.json with
        | .error error =>
          [⟨"Error fetching from AniList API for \"" ++ animeTitle ++ "\":", error.message⟩]
        | .ok errorBody =>
          [⟨"AniList API Error for \"" ++ animeTitle ++ "\" (Status: " ++
              toString response.status ++ "):", errorBody.raw⟩] ++
          (if response.status = 429 then
            [⟨"Error fetching from AniList API for \"" ++ animeTitle ++ "\":",
              "Rate limit hit for \"" ++ animeTitle ++ "\". Please wait and try again."⟩]
          else [])) := by
  unfold fetchAnimeDetails fetchAnimeDetailsTry
  rcases hj : response.json with e | body
  · simp [hok, hj]
  · by_cases h429 : response.status = 429 <;> simp [hok, h429, hj]

/-- C4 (amended) at three concrete answers: 404 and 429 with a JSON body, and 429 with a
body that is not JSON. -/
theorem fetchAnimeDetails_non2xx_witness :
    (fetchAnimeDetails "Bad Girl" (.response ⟨404, .ok ⟨"", .ok none⟩⟩)).1 = .ok none ∧
    (fetchAnimeDetails "Bad Girl" (.response ⟨429, .ok ⟨"", .ok none⟩⟩)).1 = .ok none ∧
    (fetchAnimeDetails "Bad Girl"
        (.response ⟨429, .error ⟨"Unexpected token"⟩⟩)).2 =
      [⟨"Error fetching from AniList API for \"Bad Girl\":", "Unexpected token"⟩] :=
  ⟨(fetchAnimeDetails_non2xx "Bad Girl" ⟨404, .ok ⟨"", .ok none⟩⟩ (by decide)).1,
    (fetchAnimeDetails_non2xx "Bad Girl" ⟨429, .ok ⟨"", .ok none⟩⟩ (by decide)).1,
    (fetchAnimeDetails_non2xx "Bad Girl" ⟨429, .error ⟨"Unexpected token"⟩⟩ (by decide)).2.2⟩

end AnimeSchedule
